import Mathlib

/-!
# Verification of the guble cluster-coordination layer

A shallow embedding of `server/cluster/cluster.go` (the Cluster Coordinator:
lifecycle, health check, broadcast fan-out, inbound dispatch, membership
callbacks), together with a Cluster Message Codec modelled from the spec
(the codec source file `message.go` is not part of the analyzed fragment).

Go errors are modelled as `Option GoError` results (`none` = nil error);
side effects that the claims observe (join attempts, per-peer sends,
handler invocations) are returned as an explicit event list; Go methods
that could mutate the receiver return the post-state `Cluster` explicitly,
so that "mutates no state" is a provable statement.
-/

/-- Go `error` values: `errors.New(s)` carries only its message string. -/
abbrev GoError := String

/-- Go `[]byte`, as a list of byte values (each `< 256` when produced by Go). -/
abbrev Bytes := List Nat

/-- A member node as seen through the Membership Provider
(`memberlist.Node`); only its provider-assigned name is relevant here. -/
structure Node where
  name : String
deriving DecidableEq, Repr

/-- Observable behaviour of the external Membership Provider
(`memberlist.Memberlist`) at the moment of a call: the current member list,
the current health score, and the result the `Join` call would report
(`joinNum` contacted peers, `joinErr` error). -/
structure Provider where
  members : List Node
  healthScore : Int
  joinNum : Nat
  joinErr : Option GoError
deriving Repr

/-- A parsed guble protocol message (`protocol.Message`, external to the
analyzed fragment); its content is opaque here, `raw` standing for its
serialized form returned by `Bytes()`. -/
structure ProtocolMessage where
  raw : Bytes
deriving DecidableEq, Repr

/-- Go method `Bytes()` of `protocol.Message`. -/
def ProtocolMessage.Bytes (pm : ProtocolMessage) : Bytes := pm.raw

/-- Side effects of Coordinator calls that the specification observes. -/
inductive Event where
  | joinAttempt (remotes : List String)
  | send (nodeName : String) (bytes : Bytes)
  | handleMessage (pm : ProtocolMessage)
deriving DecidableEq, Repr

/-- Go struct `Config`: the local node's cluster configuration. A remote is
kept as its already-rendered `IP:port` string (`net.TCPAddr` rendering is
external to this layer). -/
structure Config where
  ID : Int
  Host : String
  Port : Int
  Remotes : List String
  HealthScoreThreshold : Int
deriving Repr

/-- Modelled from the spec: the `kind` enumeration of the wire envelope
(`stringMessage` | `applicationMessage`), whose defining source file
(`message.go`) is not in the analyzed fragment; `cluster.go` refers to the
two constants as `stringMessage` and `gubleMessage`, the latter being the
spec's `applicationMessage`. -/
inductive messageType where
  | gubleMessage
  | stringMessage
deriving DecidableEq, Repr

/-- Modelled from the spec: the `ClusterEnvelope` wire entity (`message`
struct of the missing `message.go`): integer sender node id (`NodeID`),
kind discriminant (Go field `Type`, renamed `MsgType` since `Type` is a
Lean keyword), and opaque body bytes. -/
structure message where
  NodeID : Int
  MsgType : messageType
  Body : Bytes
deriving DecidableEq, Repr

/-- Go struct `Cluster`: the Coordinator's own state. The external
`memberlist` handle is passed explicitly as a `Provider` to the operations
that consult it; `MessageHandler` is a nilable interface value whose only
observable action (`HandleMessage`) is recorded as an event. -/
structure Cluster where
  config : Config
  MessageHandler : Option Unit
  name : String
  broadcasts : List Bytes
  numJoins : Nat
  numLeaves : Nat
  numUpdates : Nat
deriving Repr

/-- Go function `New(config)`: constructs the Coordinator, deriving its self-name as
the string form of the configured numeric ID (`fmt.Sprintf("%d", config.ID)`).
Provider construction and its error path (`memberlist.Create` failing)
happen outside the state built here and are not consulted by any claim. -/
def New (config : Config) : Cluster :=
  { config := config
    MessageHandler := none
    name := toString config.ID
    broadcasts := []
    numJoins := 0
    numLeaves := 0
    numUpdates := 0 }

/-- The error message `Start` returns when no `MessageHandler` is set
(the spec's `ConfigurationError`). -/
def missingHandlerError : GoError :=
  "There should be a valid MessageHandler already set-up"

/-- The error message `Start` returns when join contacted zero peers
(one face of the spec's `JoinError`). -/
def zeroContactedError : GoError :=
  "No remote hosts were successfuly contacted when this node wanted to join the cluster"

/-- Go method `remotesAsStrings`: the remote addresses handed to the Provider's join. -/
def Cluster.remotesAsStrings (cluster : Cluster) : List String :=
  cluster.config.Remotes

/-- Go method `Start()`: requires a set `MessageHandler`, then joins via the Provider;
an erroring join, or a join contacting zero peers, fails `Start`.
Returns (post-state, returned error, observable effects). -/
def Cluster.Start (cluster : Cluster) (p : Provider) :
    Cluster × Option GoError × List Event :=
  if cluster.MessageHandler.isNone then
    (cluster, some missingHandlerError, [])
  else
    match p.joinErr with
    | some err => (cluster, some err, [.joinAttempt cluster.remotesAsStrings])
    | none =>
      if p.joinNum = 0 then
        (cluster, some zeroContactedError, [.joinAttempt cluster.remotesAsStrings])
      else
        (cluster, none, [.joinAttempt cluster.remotesAsStrings])

/-- The error message `Check` returns on a bad health score
(the spec's `HealthError`). -/
def healthError : GoError := "Cluster Health Score is not perfect"

/-- Go method `Check()`: fails iff the Provider's health score exceeds the configured
threshold. Returns the post-state to make its absence of mutation explicit. -/
def Cluster.Check (cluster : Cluster) (p : Provider) :
    Option GoError × Cluster :=
  if p.healthScore > cluster.config.HealthScoreThreshold then
    (some healthError, cluster)
  else
    (none, cluster)

/-- Little-endian base-256 digits of `v`, exactly `w` bytes wide. -/
def natToBytesLE : Nat → Nat → Bytes
  | 0, _ => []
  | w + 1, v => v % 256 :: natToBytesLE w (v / 256)

/-- The value of a little-endian base-256 byte list. -/
def bytesLEToNat : Bytes → Nat
  | [] => 0
  | b :: bs => b + 256 * bytesLEToNat bs

/-- Zig-zag mapping of a (64-bit, in Go) signed node id to a natural. -/
def zigzag (i : Int) : Nat :=
  if 0 ≤ i then 2 * i.toNat else 2 * (-i).toNat - 1

/-- Inverse of `zigzag`. -/
def unzigzag (n : Nat) : Int :=
  if n % 2 = 0 then ((n / 2 : Nat) : Int) else -(((n + 1) / 2 : Nat) : Int)

/-- Modelled from the spec: the kind discriminant byte of the wire envelope
("a single-byte or small-integer kind discriminant"); the codec source file
(`message.go`) is not in the analyzed fragment. -/
def kindByte : messageType → Nat
  | .gubleMessage => 0
  | .stringMessage => 1

/-- Modelled from the spec: `encode(envelope) -> bytes`, total and
deterministic ("must succeed for any well-formed envelope"); the codec
source file (`message.go`) is not in the analyzed fragment. Layout (an
internal contract per the spec): kind byte, 8-byte little-endian zig-zag
sender id, raw body. -/
def message.encode (m : message) : Bytes :=
  kindByte m.MsgType :: (natToBytesLE 8 (zigzag m.NodeID) ++ m.Body)

/-- Modelled from the spec: `decode(bytes) -> envelope | DecodeError`,
failing on empty, truncated or structurally invalid input and never
crashing; the codec source file (`message.go`) is not in the analyzed
fragment. -/
def decode (bs : Bytes) : Except GoError message :=
  match bs with
  | [] => .error "decode: empty input"
  | k :: rest =>
    if rest.length < 8 then .error "decode: truncated input"
    else if k = 0 then
      .ok { NodeID := unzigzag (bytesLEToNat (rest.take 8))
            MsgType := .gubleMessage
            Body := rest.drop 8 }
    else if k = 1 then
      .ok { NodeID := unzigzag (bytesLEToNat (rest.take 8))
            MsgType := .stringMessage
            Body := rest.drop 8 }
    else .error "decode: unknown message type"

/-- An envelope constructible by the Go code: its sender id is a Go `int`
(64-bit signed) and its body bytes are `byte` values. -/
def message.constructible (m : message) : Prop :=
  -(2 ^ 63) ≤ m.NodeID ∧ m.NodeID < 2 ^ 63 ∧ ∀ b ∈ m.Body, b < 256

/-- The error message `broadcastClusterMessage` returns on a nil envelope. -/
def nilMessageError : GoError := "Could not broadcast a nil cluster-message"

/-- Go method `broadcastClusterMessage`: rejects a nil envelope, encodes once, then
fans the same bytes out to every current member except the one whose name
equals the Coordinator's own name (`if cluster.name == node.Name continue`).
Each remaining member gets one `sendToNode` attempt (its own goroutine in
Go, recorded here as one `send` event, in member-list order). The modelled
`encode` is total, so the Go branch propagating an encode error is empty. -/
def Cluster.broadcastClusterMessage (cluster : Cluster) (p : Provider)
    (cMessage : Option message) : Option GoError × List Event :=
  match cMessage with
  | none => (some nilMessageError, [])
  | some m =>
    let cMessageBytes := m.encode
    (none,
      (p.members.filter (fun node => !(cluster.name == node.name))).map
        (fun node => .send node.name cMessageBytes))

/-- UTF-8 bytes of a Go string (`[]byte(s)`). -/
def stringBytes (s : String) : Bytes :=
  s.toUTF8.toList.map UInt8.toNat

/-- The envelope struct literal built by `BroadcastString`:
`message{NodeID: cluster.Config.ID, Type: stringMessage, Body: []byte(*sMessage)}`. -/
def Cluster.stringEnvelope (cluster : Cluster) (sMessage : String) : message :=
  { NodeID := cluster.config.ID
    MsgType := .stringMessage
    Body := stringBytes sMessage }

/-- The envelope struct literal built by `BroadcastMessage`:
`message{NodeID: cluster.Config.ID, Type: gubleMessage, Body: pMessage.Bytes()}`. -/
def Cluster.gubleEnvelope (cluster : Cluster) (pMessage : ProtocolMessage) : message :=
  { NodeID := cluster.config.ID
    MsgType := .gubleMessage
    Body := pMessage.Bytes }

/-- Go method `BroadcastString`: wraps the string's bytes in an envelope with this
node's ID and kind `stringMessage`, and broadcasts it. -/
def Cluster.BroadcastString (cluster : Cluster) (p : Provider)
    (sMessage : String) : Option GoError × List Event :=
  cluster.broadcastClusterMessage p (some (cluster.stringEnvelope sMessage))

/-- Go method `BroadcastMessage`: wraps the protocol message's serialized bytes in an
envelope with this node's ID and kind `gubleMessage`, and broadcasts it. -/
def Cluster.BroadcastMessage (cluster : Cluster) (p : Provider)
    (pMessage : ProtocolMessage) : Option GoError × List Event :=
  cluster.broadcastClusterMessage p (some (cluster.gubleEnvelope pMessage))

/-- Go method `NotifyMsg(msg)`: decodes the raw bytes (a failure is logged and the
message dropped); when a handler is set and the envelope's kind is
`gubleMessage`, parses the body via `protocol.ParseMessage` (external to
the analyzed fragment, passed as the function `parse`) and, on success,
invokes the handler once with the parsed message. Returns the post-state
and the handler invocations performed. -/
def Cluster.NotifyMsg (cluster : Cluster)
    (parse : Bytes → Except GoError ProtocolMessage) (msg : Bytes) :
    Cluster × List Event :=
  match decode msg with
  | .error _ => (cluster, [])
  | .ok cmsg =>
    if cluster.MessageHandler.isSome && (cmsg.MsgType == .gubleMessage) then
      match parse cmsg.Body with
      | .error _ => (cluster, [])
      | .ok m => (cluster, [.handleMessage m])
    else (cluster, [])

/-- Go method `NotifyJoin`: increments the join counter. -/
def Cluster.NotifyJoin (cluster : Cluster) (_node : Node) : Cluster :=
  { cluster with numJoins := cluster.numJoins + 1 }

/-- Go method `NotifyLeave`: increments the leave counter. -/
def Cluster.NotifyLeave (cluster : Cluster) (_node : Node) : Cluster :=
  { cluster with numLeaves := cluster.numLeaves + 1 }

/-- Go method `NotifyUpdate`: increments the update counter. -/
def Cluster.NotifyUpdate (cluster : Cluster) (_node : Node) : Cluster :=
  { cluster with numUpdates := cluster.numUpdates + 1 }

/-- Outcome of a call that may abort the process instead of returning. -/
inductive CallOutcome (α : Type) where
  | returns (a : α)
  | panics (msg : String)
deriving DecidableEq, Repr

/-- Go method `NotifyConflict(existing, other)`: unconditionally calls
`logger.Panic("NotifyConflict")`, aborting instead of returning, for every
pair of conflicting nodes. -/
def Cluster.NotifyConflict (_cluster : Cluster) (_existing _other : Node) :
    CallOutcome Unit :=
  .panics "NotifyConflict"

theorem natToBytesLE_length (w v : Nat) : (natToBytesLE w v).length = w := by
  induction w generalizing v with
  | zero => rfl
  | succ w ih => simp [natToBytesLE, ih]

theorem bytesLEToNat_natToBytesLE (w v : Nat) (h : v < 256 ^ w) :
    bytesLEToNat (natToBytesLE w v) = v := by
  induction w generalizing v with
  | zero =>
    simp only [natToBytesLE, bytesLEToNat]
    omega
  | succ w ih =>
    have hdiv : v / 256 < 256 ^ w := by
      rw [pow_succ] at h
      omega
    simp only [natToBytesLE, bytesLEToNat, ih _ hdiv]
    omega

theorem unzigzag_zigzag (i : Int) : unzigzag (zigzag i) = i := by
  unfold zigzag unzigzag
  split <;> split <;> omega

theorem zigzag_bound (i : Int) (h1 : -(2 ^ 63) ≤ i) (h2 : i < 2 ^ 63) :
    zigzag i < 256 ^ 8 := by
  have e1 : ((2 : Int) ^ 63) = 9223372036854775808 := by norm_num
  have e2 : ((256 : Nat) ^ 8) = 18446744073709551616 := by norm_num
  rw [e1] at h1 h2
  rw [e2]
  unfold zigzag
  split <;> omega

theorem decode_encode_aux (m : message) (h : m.constructible) :
    decode m.encode = .ok m := by
  obtain ⟨h1, h2, -⟩ := h
  have hlen : (natToBytesLE 8 (zigzag m.NodeID)).length = 8 :=
    natToBytesLE_length 8 (zigzag m.NodeID)
  have hz : zigzag m.NodeID < 256 ^ 8 := zigzag_bound m.NodeID h1 h2
  have htake : (natToBytesLE 8 (zigzag m.NodeID) ++ m.Body).take 8 =
      natToBytesLE 8 (zigzag m.NodeID) := by
    rw [List.take_append_of_le_length (by rw [hlen]),
      List.take_of_length_le (by rw [hlen])]
  have hdrop : (natToBytesLE 8 (zigzag m.NodeID) ++ m.Body).drop 8 = m.Body := by
    have := @List.drop_append Nat (natToBytesLE 8 (zigzag m.NodeID)) m.Body 0
    rw [hlen] at this
    simpa using this
  have hnotlt : ¬ ((natToBytesLE 8 (zigzag m.NodeID) ++ m.Body).length < 8) := by
    simp [List.length_append, hlen]
  cases m with
  | mk nid t body =>
    cases t <;>
      simp_all [message.encode, decode, kindByte,
        bytesLEToNat_natToBytesLE 8 _ hz, unzigzag_zigzag]

theorem broadcastClusterMessage_events (c : Cluster) (p : Provider) (m : message) :
    (c.broadcastClusterMessage p (some m)).2 =
      (p.members.filter (fun node => !(c.name == node.name))).map
        (fun node => Event.send node.name m.encode) := rfl

theorem no_self_send (c : Cluster) (p : Provider) (m : message) (b : Bytes) :
    Event.send c.name b ∉ (c.broadcastClusterMessage p (some m)).2 := by
  intro hmem
  rw [broadcastClusterMessage_events] at hmem
  obtain ⟨node, hnode, heq⟩ := List.mem_map.mp hmem
  obtain ⟨-, hcond⟩ := List.mem_filter.mp hnode
  injection heq with hname hbytes
  rw [hname] at hcond
  simp at hcond

/-- C1: a broadcast (`BroadcastString` or `BroadcastMessage`) from a
Coordinator built by `New` never attempts delivery to a listed member whose
name equals the Coordinator's derived self-name (the string form of its
configured ID), and every other listed member gets exactly one send attempt
carrying the same encoded bytes (one `send` event per remaining member-list
entry, all with the envelope's encoding). -/
theorem C1_broadcast_self_exclusion (cfg : Config) (mh : Option Unit)
    (p : Provider) (s : String) (pm : ProtocolMessage) :
    let c : Cluster := { New cfg with MessageHandler := mh }
    ((c.BroadcastString p s).2 =
        (p.members.filter (fun node => !(toString cfg.ID == node.name))).map
          (fun node => Event.send node.name (c.stringEnvelope s).encode)) ∧
    (∀ b : Bytes, Event.send (toString cfg.ID) b ∉ (c.BroadcastString p s).2) ∧
    ((c.BroadcastMessage p pm).2 =
        (p.members.filter (fun node => !(toString cfg.ID == node.name))).map
          (fun node => Event.send node.name (c.gubleEnvelope pm).encode)) ∧
    (∀ b : Bytes, Event.send (toString cfg.ID) b ∉ (c.BroadcastMessage p pm).2) := by
  intro c
  refine ⟨rfl, ?_, rfl, ?_⟩
  · intro b
    exact no_self_send c p (c.stringEnvelope s) b
  · intro b
    exact no_self_send c p (c.gubleEnvelope pm) b

/-- C8: on a naming conflict between two members, `NotifyConflict` aborts
the process unconditionally (`logger.Panic`); it never returns normally,
for every pair of conflicting nodes. -/
theorem C8_conflict_always_panics (c : Cluster) (existing other : Node) :
    c.NotifyConflict existing other = CallOutcome.panics "NotifyConflict" ∧
    ∀ u : Unit, c.NotifyConflict existing other ≠ CallOutcome.returns u :=
  ⟨rfl, fun _ h => nomatch h⟩

/-- C9: the envelope built by `BroadcastString` carries the broadcasting
Cluster's own configured ID and kind `stringMessage`, the one built by
`BroadcastMessage` carries that ID and kind `gubleMessage` (the spec's
`applicationMessage`), and each broadcast call fans out exactly that
envelope, for every input message. -/
theorem C9_broadcast_envelope_fields (c : Cluster) (p : Provider) (s : String)
    (pm : ProtocolMessage) :
    (c.stringEnvelope s).NodeID = c.config.ID ∧
    (c.stringEnvelope s).MsgType = messageType.stringMessage ∧
    (c.gubleEnvelope pm).NodeID = c.config.ID ∧
    (c.gubleEnvelope pm).MsgType = messageType.gubleMessage ∧
    c.BroadcastString p s = c.broadcastClusterMessage p (some (c.stringEnvelope s)) ∧
    c.BroadcastMessage p pm = c.broadcastClusterMessage p (some (c.gubleEnvelope pm)) :=
  ⟨rfl, rfl, rfl, rfl, rfl, rfl⟩

/-- Concrete configuration used by the witness statements. -/
def cfgEx : Config :=
  { ID := 7, Host := "localhost", Port := 10000, Remotes := ["10.0.0.1:10000"],
    HealthScoreThreshold := 3 }

/-- Concrete Coordinator with a registered handler, for witnesses. -/
def clusterEx : Cluster := { New cfgEx with MessageHandler := some () }

/-- Concrete Coordinator with no handler registered, for witnesses. -/
def clusterNoHandlerEx : Cluster := New cfgEx

/-- Concrete parse function standing for `protocol.ParseMessage`, for
witnesses: accepts any body. -/
def parseEx : Bytes → Except GoError ProtocolMessage :=
  fun bs => .ok ⟨bs⟩

/-- Concrete Provider whose join would contact zero peers, for witnesses. -/
def providerZeroEx : Provider :=
  { members := [], healthScore := 0, joinNum := 0, joinErr := none }

/-- C2: for an inbound byte sequence decoding to an envelope of kind
`stringMessage`, `NotifyMsg` never invokes the Message Handler; for one
decoding to kind `gubleMessage` (the spec's `applicationMessage`) whose
body parses, `NotifyMsg` invokes the registered handler exactly once with
the parsed message. -/
theorem C2_dispatch_filtering (c : Cluster)
    (parse : Bytes → Except GoError ProtocolMessage) (msg : Bytes)
    (cmsg : message) (h : decode msg = .ok cmsg) :
    (cmsg.MsgType = messageType.stringMessage →
      (c.NotifyMsg parse msg).2 = []) ∧
    (∀ pm : ProtocolMessage, cmsg.MsgType = messageType.gubleMessage →
      c.MessageHandler.isSome = true → parse cmsg.Body = .ok pm →
      (c.NotifyMsg parse msg).2 = [Event.handleMessage pm]) := by
  constructor
  · intro ht
    simp [Cluster.NotifyMsg, h, ht]
  · intro pm ht hh hp
    simp [Cluster.NotifyMsg, h, ht, hh, hp]

theorem C2_dispatch_filtering_witness :
    ((clusterEx.NotifyMsg parseEx
        (message.encode ⟨5, .stringMessage, [65]⟩)).2 = []) ∧
    ((clusterEx.NotifyMsg parseEx
        (message.encode ⟨5, .gubleMessage, [65]⟩)).2 =
      [Event.handleMessage ⟨[65]⟩]) :=
  ⟨(C2_dispatch_filtering clusterEx parseEx
      (message.encode ⟨5, .stringMessage, [65]⟩) ⟨5, .stringMessage, [65]⟩
      rfl).1 rfl,
   (C2_dispatch_filtering clusterEx parseEx
      (message.encode ⟨5, .gubleMessage, [65]⟩) ⟨5, .gubleMessage, [65]⟩
      rfl).2 ⟨[65]⟩ rfl rfl rfl⟩

/-- C3: `Start()` on a Cluster with no registered `MessageHandler` returns
the "missing handler" configuration error, performs no join attempt, and
leaves the Cluster's state unchanged. -/
theorem C3_start_missing_handler (c : Cluster) (p : Provider)
    (h : c.MessageHandler = none) :
    c.Start p = (c, some missingHandlerError, []) := by
  simp [Cluster.Start, h]

theorem C3_start_missing_handler_witness :
    clusterNoHandlerEx.Start providerZeroEx =
      (clusterNoHandlerEx, some missingHandlerError, []) :=
  C3_start_missing_handler clusterNoHandlerEx providerZeroEx rfl

/-- C4: with a handler registered, `Start()` returns nil exactly when the
join reports no error and at least one contacted peer; a join reporting
success with zero contacted peers makes `Start()` return the zero-peer
join error. -/
theorem C4_start_zero_peer_join (c : Cluster) (p : Provider)
    (h : c.MessageHandler.isSome = true) :
    ((c.Start p).2.1 = none ↔ p.joinErr = none ∧ 0 < p.joinNum) ∧
    (p.joinErr = none ∧ p.joinNum = 0 →
      (c.Start p).2.1 = some zeroContactedError) := by
  obtain ⟨v, hv⟩ := Option.isSome_iff_exists.mp h
  constructor
  · cases hj : p.joinErr with
    | some e => simp [Cluster.Start, hv, hj]
    | none =>
      by_cases hn : p.joinNum = 0 <;> simp [Cluster.Start, hv, hj, hn]
      all_goals omega
  · rintro ⟨hj, hn⟩
    simp [Cluster.Start, hv, hj, hn]

theorem C4_start_zero_peer_join_witness :
    ((clusterEx.Start providerZeroEx).2.1 = none ↔
      providerZeroEx.joinErr = none ∧ 0 < providerZeroEx.joinNum) ∧
    (providerZeroEx.joinErr = none ∧ providerZeroEx.joinNum = 0 →
      (clusterEx.Start providerZeroEx).2.1 = some zeroContactedError) :=
  C4_start_zero_peer_join clusterEx providerZeroEx rfl

/-- C5: `Check()` returns nil exactly when the Provider's health score is
at most `Config.HealthScoreThreshold` (a score equal to the threshold is
healthy), returns the health error otherwise, and mutates no Cluster
state. -/
theorem C5_check_threshold (c : Cluster) (p : Provider) :
    ((c.Check p).1 = none ↔ p.healthScore ≤ c.config.HealthScoreThreshold) ∧
    ((c.Check p).1 = none ∨ (c.Check p).1 = some healthError) ∧
    (c.Check p).2 = c := by
  unfold Cluster.Check
  by_cases hgt : p.healthScore > c.config.HealthScoreThreshold <;> simp [hgt]
  all_goals omega

/-- C6: on an inbound byte sequence that fails to decode, `NotifyMsg`
returns normally with no handler invocation and no change to the Cluster's
state (the message is only logged and discarded). -/
theorem C6_decode_error_discards (c : Cluster)
    (parse : Bytes → Except GoError ProtocolMessage) (msg : Bytes)
    (e : GoError) (h : decode msg = .error e) :
    c.NotifyMsg parse msg = (c, []) := by
  simp [Cluster.NotifyMsg, h]

theorem C6_decode_error_discards_witness :
    decode [] = .error "decode: empty input" ∧
    clusterEx.NotifyMsg parseEx [] = (clusterEx, []) :=
  ⟨rfl, C6_decode_error_discards clusterEx parseEx [] "decode: empty input" rfl⟩

/-- C7: decoding the encoding of any constructible envelope yields the
envelope itself: `decode(encode(e)) == e`. -/
theorem C7_codec_roundtrip (m : message) (h : m.constructible) :
    decode m.encode = .ok m :=
  decode_encode_aux m h

theorem C7_codec_roundtrip_witness :
    message.constructible ⟨5, .gubleMessage, [1, 2]⟩ ∧
    decode (message.encode ⟨5, .gubleMessage, [1, 2]⟩) =
      .ok ⟨5, .gubleMessage, [1, 2]⟩ :=
  ⟨⟨by norm_num, by norm_num, by decide⟩,
   C7_codec_roundtrip ⟨5, .gubleMessage, [1, 2]⟩
     ⟨by norm_num, by norm_num, by decide⟩⟩

/-- C10: when no `MessageHandler` is registered, `NotifyMsg` returns
normally with no handler invocation and unchanged state, even when the
bytes decode to a well-formed `gubleMessage` envelope: such messages are
silently dropped. -/
theorem C10_nil_handler_drops (c : Cluster)
    (parse : Bytes → Except GoError ProtocolMessage) (msg : Bytes)
    (h : c.MessageHandler = none) :
    c.NotifyMsg parse msg = (c, []) := by
  cases hd : decode msg with
  | error e => simp [Cluster.NotifyMsg, hd]
  | ok cmsg => simp [Cluster.NotifyMsg, hd, h]

theorem C10_nil_handler_drops_witness :
    decode (message.encode ⟨7, .gubleMessage, [65]⟩) =
      .ok ⟨7, .gubleMessage, [65]⟩ ∧
    clusterNoHandlerEx.NotifyMsg parseEx
        (message.encode ⟨7, .gubleMessage, [65]⟩) =
      (clusterNoHandlerEx, []) :=
  ⟨rfl, C10_nil_handler_drops clusterNoHandlerEx parseEx _ rfl⟩
